import Mathlib

/-!
Verification of the hardware-fault dispatch layer in
`src/hotspot/os_cpu/bsd_aarch64/os_bsd_aarch64.cpp` (jdk11u, bsd_aarch64 port).

The file contains two build-time variants of the signal handler
`JVM_handle_bsd_signal`: one compiled under `__APPLE__` (lines 256-490)
and one for FreeBSD/OpenBSD/NetBSD (lines 922-1199).  Both are embedded
below as pure functions over an environment record `Env` that carries the
answers of every external query the handler makes (thread state, guard-zone
membership, code-cache lookups, stub providers, ...).  The handler variants
differ only in which registers of the raw `ucontext_t` they touch and in a
few guard conditions; both are transcribed here branch for branch.

Machine addresses are modelled as `Nat` with explicit `% 2^64` wherever the
C code can wrap (pointer additions/subtractions).  The C `NULL` stub value
is modelled as the address `0`, exactly as the code uses `address stub = NULL`
and tests `stub != NULL`.  Debug-only code (`assert`, `tty` printing,
`TraceTraps`, the `CAN_SHOW_REGISTERS_ON_ASSERT` block) has no effect on
control flow in a product build and is omitted.
-/

namespace JdkBsdAarch64

/-- Fixed AArch64 instruction width in bytes (`NativeInstruction::instruction_size`). -/
def nativeInstructionSize : Nat := 4

/-- `NativeCall::instruction_size` on AArch64: a single 4-byte `bl` instruction. -/
def nativeCallInstructionSize : Nat := 4

/-- 64-bit wrap-around for machine-address arithmetic. -/
def wrap64 (n : Nat) : Nat := n % 2^64

/-- The C sentinel `(address)-1` returned by `JNI_FastGetField::find_slowcase_pc`
on a miss (line 441: `if (addr != (address)-1)`). -/
def addrMinusOne : Nat := 2^64 - 1

/-- `lr - NativeInstruction::instruction_size` as 64-bit machine arithmetic. -/
def lrMinusInstruction (lr : Nat) : Nat := wrap64 (lr + (2^64 - nativeInstructionSize))

/-- `pc + NativeCall::instruction_size` as 64-bit machine arithmetic: the
continuation one native-call instruction past the faulting pc. -/
def nextPCAfterCall (pc : Nat) : Nat := wrap64 (pc + nativeCallInstructionSize)

/-- The signals the handler distinguishes. -/
inductive Sig where
  | SIGSEGV | SIGBUS | SIGILL | SIGTRAP | SIGFPE | SIGPIPE | SIGXFSZ | SIGOTHER
deriving DecidableEq

/-- `JavaThread::thread_state()` values the handler tests
(`_thread_in_Java`, `_thread_in_vm`, `_thread_in_native`, anything else). -/
inductive ThreadState where
  | in_Java | in_vm | in_native | in_other
deriving DecidableEq

/-- The `siginfo_t::si_code` values tested by the handler (for SIGFPE). -/
inductive SiCode where
  | FPE_INTDIV | FPE_FLTDIV | FPE_NOOP | CODE_OTHER
deriving DecidableEq

/-- The part of `siginfo_t` the handler reads. -/
structure SigInfo where
  si_addr : Nat
  si_code : SiCode
deriving DecidableEq

/-- `SharedRuntime::continuation_for_implicit_exception` exception kinds used here. -/
inductive ImplicitKind where
  | STACK_OVERFLOW | IMPLICIT_DIVIDE_BY_ZERO | IMPLICIT_NULL
deriving DecidableEq

/-- The `__APPLE__` raw context layout (`_STRUCT_MCONTEXT64`): general registers
x0..x28, frame pointer, link register, stack pointer, program counter, flags.
Accessed only through the `context_*` macros (lines 109-115). -/
structure UContextApple where
  x : Fin 29 → Nat
  fp : Nat
  lr : Nat
  sp : Nat
  pc : Nat
  cpsr : Nat

/-- The FreeBSD raw context layout (`uc_mcontext.mc_gpregs`): x0..x29 (x29 is
the frame pointer, selected by `REG_FP 29`), link register, stack pointer,
exception link register (the PC) and status register.  The OpenBSD (`sc_*`)
and NetBSD (`__gregs`) layouts select the same five pieces of state by other
field spellings (lines 771-809). -/
structure UContextFBsd where
  gp_x : Fin 30 → Nat
  gp_lr : Nat
  gp_sp : Nat
  gp_elr : Nat
  gp_spsr : Nat

/-- `os::Bsd::ucontext_get_pc`, Apple variant (lines 138-140). -/
def ucontext_get_pc_apple (u : UContextApple) : Nat := u.pc

/-- `os::Bsd::ucontext_set_pc`, Apple variant (lines 142-144): writes
`uc->context_pc` and nothing else. -/
def ucontext_set_pc_apple (u : UContextApple) (npc : Nat) : UContextApple :=
  { u with pc := npc }

/-- `os::Bsd::ucontext_get_sp`, Apple variant (lines 146-148). -/
def ucontext_get_sp_apple (u : UContextApple) : Nat := u.sp

/-- `os::Bsd::ucontext_get_fp`, Apple variant (lines 150-152). -/
def ucontext_get_fp_apple (u : UContextApple) : Nat := u.fp

/-- `os::Bsd::ucontext_get_pc`, FreeBSD variant (lines 771-779): reads `gp_elr`. -/
def ucontext_get_pc_fbsd (u : UContextFBsd) : Nat := u.gp_elr

/-- `os::Bsd::ucontext_set_pc`, FreeBSD variant (lines 781-789): writes
`uc->uc_mcontext.mc_gpregs.gp_elr` and nothing else. -/
def ucontext_set_pc_fbsd (u : UContextFBsd) (npc : Nat) : UContextFBsd :=
  { u with gp_elr := npc }

/-- `os::Bsd::ucontext_get_sp`, FreeBSD variant (lines 791-799). -/
def ucontext_get_sp_fbsd (u : UContextFBsd) : Nat := u.gp_sp

/-- `os::Bsd::ucontext_get_fp`, FreeBSD variant (lines 801-809): `gp_x[REG_FP]`
with `REG_FP = 29`. -/
def ucontext_get_fp_fbsd (u : UContextFBsd) : Nat := u.gp_x 29

/-- Modelled from the spec: the SafeFetchRegistry of `(faultPC, resumePC)`
pairs behind `StubRoutines::is_safefetch_fault` /
`StubRoutines::continuation_for_safefetch_fault` (the StubRoutines code is
not part of this repository slice).  Spec 4.2: startup-registered immutable
pairs; `lookup(pc) -> Option<resumePC>`. -/
def safefetchLookup (entries : List (Nat × Nat)) (pc : Nat) : Option Nat :=
  (entries.find? (fun e => e.1 == pc)).map (fun e => e.2)

/-- `StubRoutines::is_safefetch_fault(pc)`: the pc is a registered fault pc. -/
def is_safefetch_fault (entries : List (Nat × Nat)) (pc : Nat) : Bool :=
  (safefetchLookup entries pc).isSome

/-- `StubRoutines::continuation_for_safefetch_fault(pc)`: the registered resume pc. -/
def continuation_for_safefetch_fault (entries : List (Nat × Nat)) (pc : Nat) : Nat :=
  (safefetchLookup entries pc).getD 0

/-- Modelled from the spec: `SharedRuntime::handle_unsafe_access(thread, next_pc)`
(not part of this repository slice) flags the pending unsafe-access error on the
thread and hands back the continuation it was given.  Spec 4.5 rule c:
`RedirectTo(unsafeAccessContinuation)` computed as the instruction immediately
following the faulting call. -/
def handle_unsafe_access (next_pc : Nat) : Nat := next_pc

/-- The two facts about a `CodeBlob` used by `get_frame_at_stack_banging_point`
(line 212): `is_nmethod()` and `is_frame_complete_at(pc)`. -/
structure CodeBlob where
  isNmethod : Bool
  frameCompleteAt : Nat → Bool

/-- A stack frame as built by the C++ `frame(sp, fp, pc)` constructor. -/
structure Frame where
  sp : Nat
  fp : Nat
  pc : Nat
deriving DecidableEq

/-- Answers of every external (outside this translation unit) query made during
one signal delivery.  Per-address queries are functions of the queried address
so that one environment fixes the whole behaviour of the collaborators. -/
structure Env where
  /-- `os::ThreadCrashProtection::check_crash_protection` longjmps away. -/
  crashProtection : Bool
  /-- `os::Bsd::signal_handlers_are_installed`. -/
  signalHandlersInstalled : Bool
  /-- `Thread::current_or_null_safe()` is non-null and `is_Java_thread()`. -/
  tIsJavaThread : Bool
  /-- `os::Bsd::chained_handler(sig, info, ucVoid)` result. -/
  chainedHandler : Bool
  /-- SafeFetch registry contents. -/
  safefetchEntries : List (Nat × Nat)
  /-- `thread->thread_state()`. -/
  threadState : ThreadState
  /-- `thread->on_local_stack(addr)`. -/
  onLocalStack : Nat → Bool
  /-- `thread->in_stack_yellow_reserved_zone(addr)`. -/
  inStackYellowReservedZone : Nat → Bool
  /-- `thread->in_stack_reserved_zone(addr)`. -/
  inStackReservedZone : Nat → Bool
  /-- `thread->in_stack_red_zone(addr)`. -/
  inStackRedZone : Nat → Bool
  /-- `Interpreter::contains(pc)`. -/
  interpreterContains : Nat → Bool
  /-- `CodeCache::find_blob(pc)` (`none` = NULL). -/
  findBlob : Nat → Option CodeBlob
  /-- `frame::is_first_java_frame()`. -/
  isFirstJavaFrame : Frame → Bool
  /-- `frame::is_java_frame()`. -/
  isJavaFrame : Frame → Bool
  /-- `frame::java_sender()`. -/
  javaSender : Frame → Frame
  /-- `SharedRuntime::look_for_reserved_stack_annotated_method(thread, fr)`;
  a result whose `sp` is `0` is the NULL-sp "not found" frame. -/
  lookForReservedStackAnnotatedMethod : Frame → Frame
  /-- `frame::is_interpreted_frame()`. -/
  isInterpretedFrame : Frame → Bool
  /-- `frame::unextended_sp()`. -/
  unextendedSp : Frame → Nat
  /-- `frame::interpreter_frame_initial_sp_offset` scaled to bytes, as the
  two's-complement offset added to `activation.fp()` (line 346). -/
  interpInitialSpOffsetBytes : Nat
  /-- `SharedRuntime::continuation_for_implicit_exception(thread, pc, kind)`;
  may be `0` (NULL) when no continuation exists. -/
  continuationForImplicitException : Nat → ImplicitKind → Nat
  /-- `nativeInstruction_at(pc)->is_sigill_zombie_not_entrant()`. -/
  isSigillZombieNotEntrant : Nat → Bool
  /-- `SharedRuntime::get_handle_wrong_method_stub()`. -/
  handleWrongMethodStub : Nat
  /-- `os::is_poll_address(addr)`. -/
  isPollAddress : Nat → Bool
  /-- `SharedRuntime::get_poll_stub(pc)`. -/
  pollStub : Nat → Nat
  /-- `MacroAssembler::needs_explicit_null_check(addr)`. -/
  needsExplicitNullCheck : Nat → Bool
  /-- `CodeCache::find_blob_unsafe(pc)` yields a compiled method with
  `has_unsafe_access()` (lines 402-404 collapsed into one query). -/
  compiledMethodHasUnsafeAccess : Nat → Bool
  /-- `thread->doing_unsafe_access()`. -/
  doingUnsafeAccess : Bool
  /-- `JNI_FastGetField::find_slowcase_pc(pc)`; `addrMinusOne` = miss. -/
  findSlowcasePC : Nat → Nat
  /-- `os::is_memory_serialize_page(thread, addr)`. -/
  isMemorySerializePage : Nat → Bool
  /-- FreeBSD kernel stack-gap workaround (lines 1004-1052): the number of
  bytes (`guard_pages * os::vm_page_size()`) subtracted from the fault
  address, `0` when the gap is disabled or on OpenBSD/NetBSD. -/
  stackGapAdjust : Nat

/-- Per-delivery record of the mutations the handler performs on the thread. -/
structure ThreadMut where
  /-- `thread->disable_stack_yellow_reserved_zone()` was called. -/
  yellowReservedDisabled : Bool := false
  /-- `thread->disable_stack_reserved_zone()` was called. -/
  reservedDisabled : Bool := false
  /-- `thread->disable_stack_red_zone()` was called. -/
  redDisabled : Bool := false
  /-- `thread->set_reserved_stack_activation(p)` was called with `p`. -/
  reservedActivation : Option Nat := none
  /-- `thread->set_saved_exception_pc(pc)` was called with `pc`. -/
  savedExceptionPC : Option Nat := none
deriving DecidableEq

/-- How one invocation of `JVM_handle_bsd_signal` terminates. -/
inductive Outcome where
  /-- crash protection installed: longjmp back to the protected region. -/
  | crashProtectionJump
  /-- SIGPIPE/SIGXFSZ: return true (after optionally chaining). -/
  | pipeIgnored
  /-- SafeFetch hit: pc rewritten to the continuation, return 1. -/
  | safefetchResume
  /-- `return 1` from inside the stack-overflow section. -/
  | resume
  /-- memory-serialization page: block, then return true. -/
  | serializePageResume
  /-- `stub != NULL`: pc rewritten to the stub, return true. -/
  | redirect (stub : Nat)
  /-- chained handler accepted the signal, return true. -/
  | chainForwarded
  /-- `!abort_if_unrecognized`: return false. -/
  | unhandled
  /-- `Unimplemented()` (Apple `FPE_NOOP` branch). -/
  | unimplementedTrap
  /-- `VMError::report_and_die`. -/
  | fatal
deriving DecidableEq

/-- Result of one invocation: the outcome, the final raw context (pc possibly
rewritten) and the thread mutations performed. -/
structure HResult (γ : Type) where
  outcome : Outcome
  uc : Option γ
  tm : ThreadMut

/-- `os::Bsd::get_frame_at_stack_banging_point` (lines 196-234 and the
field-spelling-identical copy at lines 853-899), as a function of the four
context registers it reads.  `none` is the C `return false`. -/
def get_frame_at_stack_banging_point (env : Env) (pc sp fp lr : Nat) : Option Frame :=
  if env.interpreterContains pc then
    let fr := Frame.mk sp fp pc
    let fr := if ¬ env.isFirstJavaFrame fr then env.javaSender fr else fr
    some fr
  else
    match env.findBlob pc with
    | none => none
    | some cb =>
      if ¬ cb.isNmethod ∨ cb.frameCompleteAt pc then none
      else
        let fpc := lrMinusInstruction lr
        let fr := Frame.mk sp fp fpc
        let fr := if ¬ env.isJavaFrame fr then env.javaSender fr else fr
        some fr

/-- The activation point recorded for a reserved-stack rescue (lines 344-349):
interpreted frames use `fp + interpreter_frame_initial_sp_offset`, compiled
frames use the unextended sp. -/
def reservedActivationPoint (env : Env) (activation : Frame) : Nat :=
  if env.isInterpretedFrame activation then
    wrap64 (activation.fp + env.interpInitialSpOffsetBytes)
  else env.unextendedSp activation

/-- Result of one pipeline stage: an early `return`, or fall through with the
current `stub` value (0 = NULL) and mutations so far. -/
inductive StageOut (γ : Type) where
  | done (r : HResult γ)
  | next (stub : Nat) (tm : ThreadMut)

/-- The stack-overflow section (lines 330-369 / 1054-1097), identical in the
two variants once the context registers are read.  `u` is the raw context the
early `return 1` paths hand back unmodified. -/
def stackOverflowCheck {γ : Type} (env : Env) (u : γ) (pc sp fp lr addr : Nat) :
    StageOut γ :=
  if env.onLocalStack addr then
    if env.inStackYellowReservedZone addr then
      if env.threadState = ThreadState.in_Java then
        let rescue : Option (HResult γ) :=
          if env.inStackReservedZone addr then
            match get_frame_at_stack_banging_point env pc sp fp lr with
            | some fr =>
              let activation := env.lookForReservedStackAnnotatedMethod fr
              if activation.sp ≠ 0 then
                some ⟨Outcome.resume, some u,
                      { reservedDisabled := true,
                        reservedActivation :=
                          some (reservedActivationPoint env activation) }⟩
              else none
            | none => none
          else none
        match rescue with
        | some r => StageOut.done r
        | none =>
          StageOut.next
            (env.continuationForImplicitException pc ImplicitKind.STACK_OVERFLOW)
            { yellowReservedDisabled := true }
      else
        StageOut.done ⟨Outcome.resume, some u, { yellowReservedDisabled := true }⟩
    else if env.inStackRedZone addr then
      StageOut.next 0 { redDisabled := true }
    else
      StageOut.next 0 {}
  else StageOut.next 0 {}

/-- Outcome of the `_thread_in_Java` else-if chain: trap into `Unimplemented()`,
assign a new stub value, or leave the stub variable untouched. -/
inductive ChainRes where
  | unimplementedTrap
  | assign (s : Nat)
  | keep
deriving DecidableEq

/-- The `_thread_in_Java` classification chain, Apple variant (lines 381-428).
Note the Apple-only conjunct `needs_explicit_null_check` on the SIGBUS
mapped-file branch (line 395) and the `FPE_NOOP` trap (lines 420-421). -/
def javaChainApple (env : Env) (sig : Sig) (code : SiCode) (addr pc : Nat) : ChainRes :=
  if sig = Sig.SIGILL ∧ env.isSigillZombieNotEntrant pc then
    ChainRes.assign env.handleWrongMethodStub
  else if (sig = Sig.SIGSEGV ∨ sig = Sig.SIGBUS) ∧ env.isPollAddress addr then
    ChainRes.assign (env.pollStub pc)
  else if sig = Sig.SIGBUS ∧ env.needsExplicitNullCheck addr then
    if env.compiledMethodHasUnsafeAccess pc then
      ChainRes.assign (handle_unsafe_access (nextPCAfterCall pc))
    else ChainRes.keep
  else if sig = Sig.SIGFPE ∧ (code = SiCode.FPE_INTDIV ∨ code = SiCode.FPE_FLTDIV) then
    ChainRes.assign
      (env.continuationForImplicitException pc ImplicitKind.IMPLICIT_DIVIDE_BY_ZERO)
  else if sig = Sig.SIGFPE ∧ code = SiCode.FPE_NOOP then
    ChainRes.unimplementedTrap
  else if (sig = Sig.SIGSEGV ∨ sig = Sig.SIGBUS) ∧ ¬ env.needsExplicitNullCheck addr then
    ChainRes.assign (env.continuationForImplicitException pc ImplicitKind.IMPLICIT_NULL)
  else ChainRes.keep

/-- The `_thread_in_Java` classification chain, FreeBSD/OpenBSD/NetBSD variant
(lines 1104-1138): zombie trap also on SIGTRAP, poll and implicit-null only on
SIGSEGV, the SIGBUS mapped-file branch without the null-check conjunct, and no
`FPE_NOOP` case. -/
def javaChainBsd (env : Env) (sig : Sig) (code : SiCode) (addr pc : Nat) : ChainRes :=
  if (sig = Sig.SIGILL ∨ sig = Sig.SIGTRAP) ∧ env.isSigillZombieNotEntrant pc then
    ChainRes.assign env.handleWrongMethodStub
  else if sig = Sig.SIGSEGV ∧ env.isPollAddress addr then
    ChainRes.assign (env.pollStub pc)
  else if sig = Sig.SIGBUS then
    if env.compiledMethodHasUnsafeAccess pc then
      ChainRes.assign (handle_unsafe_access (nextPCAfterCall pc))
    else ChainRes.keep
  else if sig = Sig.SIGFPE ∧ (code = SiCode.FPE_INTDIV ∨ code = SiCode.FPE_FLTDIV) then
    ChainRes.assign
      (env.continuationForImplicitException pc ImplicitKind.IMPLICIT_DIVIDE_BY_ZERO)
  else if sig = Sig.SIGSEGV ∧ ¬ env.needsExplicitNullCheck addr then
    ChainRes.assign (env.continuationForImplicitException pc ImplicitKind.IMPLICIT_NULL)
  else ChainRes.keep

/-- The tail of the handler after the main block (lines 466-489): signal
chaining, the `!abort_if_unrecognized` retry path, `VMError::report_and_die`. -/
def afterPipeline {γ : Type} (env : Env) (uc : Option γ) (tm : ThreadMut)
    (abortIfUnrecognized : Bool) : HResult γ :=
  if env.chainedHandler then ⟨Outcome.chainForwarded, uc, tm⟩
  else if ¬ abortIfUnrecognized then ⟨Outcome.unhandled, uc, tm⟩
  else ⟨Outcome.fatal, uc, tm⟩

/-- The common tail of both main blocks after the chain settled on a stub
value `stub2`: the unconditional JNI fast-get-field slow-case overwrite
(lines 437-444 / 1146-1153), the serialization-page check (lines 450-455 /
1159-1164), the `stub != NULL` redirect (lines 458-464 / 1167-1173) and the
chaining/abort/fatal tail.  `setPC` is the variant's `ucontext_set_pc`. -/
def stubFinish {γ : Type} (env : Env) (sig : Sig) (addr pc : Nat) (u : γ)
    (setPC : γ → Nat → γ) (tm : ThreadMut) (abortIfUnrecognized : Bool)
    (stub2 : Nat) : HResult γ :=
  let stub3 :=
    if sig = Sig.SIGSEGV ∨ sig = Sig.SIGBUS then
      let a := env.findSlowcasePC pc
      if a ≠ addrMinusOne then a else stub2
    else stub2
  if sig = Sig.SIGSEGV ∧ env.isMemorySerializePage addr then
    ⟨Outcome.serializePageResume, some u, tm⟩
  else if stub3 ≠ 0 then
    ⟨Outcome.redirect stub3, some (setPC u stub3),
     { tm with savedExceptionPC := some pc }⟩
  else afterPipeline env (some u) tm abortIfUnrecognized

/-- Dispatch on the chain's result: `Unimplemented()` traps, an assignment
replaces the stub chosen by the stack section, otherwise it is kept. -/
def chainDispatch {γ : Type} (env : Env) (sig : Sig) (addr pc : Nat) (u : γ)
    (setPC : γ → Nat → γ) (tm : ThreadMut) (abortIfUnrecognized : Bool)
    (chain : ChainRes) (stub1 : Nat) : HResult γ :=
  match chain with
  | ChainRes.unimplementedTrap => ⟨Outcome.unimplementedTrap, some u, tm⟩
  | ChainRes.assign s => stubFinish env sig addr pc u setPC tm abortIfUnrecognized s
  | ChainRes.keep => stubFinish env sig addr pc u setPC tm abortIfUnrecognized stub1

/-- The main classification block of the Apple variant (lines 323-464), entered
only with `info`, `uc` and a Java `thread` all present.  Note the
`stub == NULL` guard on entering the `_thread_in_Java` chain (line 377), the
unconditional JNI fast-get-field slow-case check (lines 439-444) and the
serialization-page check (lines 450-455). -/
def pipelineApple (env : Env) (sig : Sig) (i : SigInfo) (u : UContextApple)
    (abortIfUnrecognized : Bool) : HResult UContextApple :=
  let pc := ucontext_get_pc_apple u
  let addr := i.si_addr
  let stage1 : StageOut UContextApple :=
    if sig = Sig.SIGSEGV ∨ sig = Sig.SIGBUS then
      stackOverflowCheck env u pc (ucontext_get_sp_apple u) (ucontext_get_fp_apple u)
        u.lr addr
    else StageOut.next 0 {}
  match stage1 with
  | StageOut.done r => r
  | StageOut.next stub1 tm =>
    let chain : ChainRes :=
      if env.threadState = ThreadState.in_Java ∧ stub1 = 0 then
        javaChainApple env sig i.si_code addr pc
      else if (env.threadState = ThreadState.in_vm ∨
               env.threadState = ThreadState.in_native) ∧
              sig = Sig.SIGBUS ∧ env.doingUnsafeAccess then
        ChainRes.assign (handle_unsafe_access (nextPCAfterCall pc))
      else ChainRes.keep
    chainDispatch env sig addr pc u ucontext_set_pc_apple tm abortIfUnrecognized
      chain stub1

/-- The main classification block of the FreeBSD/OpenBSD/NetBSD variant
(lines 998-1164): the stack section runs only for SIGSEGV and on the
gap-adjusted address, the `_thread_in_Java` chain has no `stub == NULL` guard,
and the vm/native unsafe-access rule tests only `_thread_in_vm`. -/
def pipelineBsd (env : Env) (sig : Sig) (i : SigInfo) (u : UContextFBsd)
    (abortIfUnrecognized : Bool) : HResult UContextFBsd :=
  let pc := ucontext_get_pc_fbsd u
  let addr := i.si_addr
  let stage1 : StageOut UContextFBsd :=
    if sig = Sig.SIGSEGV then
      stackOverflowCheck env u pc (ucontext_get_sp_fbsd u) (ucontext_get_fp_fbsd u)
        u.gp_lr (addr - env.stackGapAdjust)
    else StageOut.next 0 {}
  match stage1 with
  | StageOut.done r => r
  | StageOut.next stub1 tm =>
    let chain : ChainRes :=
      if env.threadState = ThreadState.in_Java then
        javaChainBsd env sig i.si_code addr pc
      else if env.threadState = ThreadState.in_vm ∧
              sig = Sig.SIGBUS ∧ env.doingUnsafeAccess then
        ChainRes.assign (handle_unsafe_access (nextPCAfterCall pc))
      else ChainRes.keep
    chainDispatch env sig addr pc u ucontext_set_pc_fbsd tm abortIfUnrecognized
      chain stub1

/-- `JVM_handle_bsd_signal`, Apple variant (lines 256-490). -/
def handleSignalApple (env : Env) (sig : Sig) (info : Option SigInfo)
    (uc : Option UContextApple) (abortIfUnrecognized : Bool) : HResult UContextApple :=
  if env.crashProtection then ⟨Outcome.crashProtectionJump, uc, {}⟩
  else if sig = Sig.SIGPIPE ∨ sig = Sig.SIGXFSZ then ⟨Outcome.pipeIgnored, uc, {}⟩
  else
    match uc with
    | none => afterPipeline env none {} abortIfUnrecognized
    | some u =>
      if ucontext_get_pc_apple u ≠ 0 ∧
         is_safefetch_fault env.safefetchEntries (ucontext_get_pc_apple u) then
        ⟨Outcome.safefetchResume,
         some (ucontext_set_pc_apple u
           (continuation_for_safefetch_fault env.safefetchEntries
             (ucontext_get_pc_apple u))), {}⟩
      else
        match info with
        | some i =>
          if env.signalHandlersInstalled ∧ env.tIsJavaThread then
            pipelineApple env sig i u abortIfUnrecognized
          else afterPipeline env (some u) {} abortIfUnrecognized
        | none => afterPipeline env (some u) {} abortIfUnrecognized

/-- `JVM_handle_bsd_signal`, FreeBSD/OpenBSD/NetBSD variant (lines 922-1199). -/
def handleSignalBsd (env : Env) (sig : Sig) (info : Option SigInfo)
    (uc : Option UContextFBsd) (abortIfUnrecognized : Bool) : HResult UContextFBsd :=
  if env.crashProtection then ⟨Outcome.crashProtectionJump, uc, {}⟩
  else if sig = Sig.SIGPIPE ∨ sig = Sig.SIGXFSZ then ⟨Outcome.pipeIgnored, uc, {}⟩
  else
    match uc with
    | none => afterPipeline env none {} abortIfUnrecognized
    | some u =>
      if ucontext_get_pc_fbsd u ≠ 0 ∧
         is_safefetch_fault env.safefetchEntries (ucontext_get_pc_fbsd u) then
        ⟨Outcome.safefetchResume,
         some (ucontext_set_pc_fbsd u
           (continuation_for_safefetch_fault env.safefetchEntries
             (ucontext_get_pc_fbsd u))), {}⟩
      else
        match info with
        | some i =>
          if env.signalHandlersInstalled ∧ env.tIsJavaThread then
            pipelineBsd env sig i u abortIfUnrecognized
          else afterPipeline env (some u) {} abortIfUnrecognized
        | none => afterPipeline env (some u) {} abortIfUnrecognized

/-! ## Concrete instances used to exercise the theorems -/

/-- A concrete environment; individual theorems instantiate it with the fields
their hypotheses need. -/
def envBase : Env where
  crashProtection := false
  signalHandlersInstalled := true
  tIsJavaThread := true
  chainedHandler := false
  safefetchEntries := []
  threadState := ThreadState.in_Java
  onLocalStack := fun _ => false
  inStackYellowReservedZone := fun _ => false
  inStackReservedZone := fun _ => false
  inStackRedZone := fun _ => false
  interpreterContains := fun _ => false
  findBlob := fun _ => none
  isFirstJavaFrame := fun _ => false
  isJavaFrame := fun _ => true
  javaSender := fun fr => fr
  lookForReservedStackAnnotatedMethod := fun _ => ⟨0, 0, 0⟩
  isInterpretedFrame := fun _ => false
  unextendedSp := fun fr => fr.sp
  interpInitialSpOffsetBytes := 0
  continuationForImplicitException := fun _ _ => 0
  isSigillZombieNotEntrant := fun _ => false
  handleWrongMethodStub := 0
  isPollAddress := fun _ => false
  pollStub := fun _ => 0
  needsExplicitNullCheck := fun _ => true
  compiledMethodHasUnsafeAccess := fun _ => false
  doingUnsafeAccess := false
  findSlowcasePC := fun _ => addrMinusOne
  isMemorySerializePage := fun _ => false
  stackGapAdjust := 0

/-- A concrete Apple context with all registers zero. -/
def ucA0 : UContextApple := ⟨fun _ => 0, 0, 0, 0, 0, 0⟩

/-- A concrete FreeBSD context with all registers zero. -/
def ucF0 : UContextFBsd := ⟨fun _ => 0, 0, 0, 0, 0⟩

/-! ## C9: `ucontext_set_pc` writes only the program counter -/

/-- C9: for every raw context and every new program-counter value,
`os::Bsd::ucontext_set_pc` (lines 142-144 Apple, 781-789 FreeBSD) rewrites
exactly the program-counter field; the general-purpose registers, stack
pointer, frame pointer, link register and status flags are unchanged. -/
theorem ucontext_set_pc_writes_only_pc :
    ∀ (u : UContextApple) (v : UContextFBsd) (npc : Nat),
      (ucontext_set_pc_apple u npc).pc = npc ∧
      (ucontext_set_pc_apple u npc).x = u.x ∧
      (ucontext_set_pc_apple u npc).fp = u.fp ∧
      (ucontext_set_pc_apple u npc).lr = u.lr ∧
      (ucontext_set_pc_apple u npc).sp = u.sp ∧
      (ucontext_set_pc_apple u npc).cpsr = u.cpsr ∧
      (ucontext_set_pc_fbsd v npc).gp_elr = npc ∧
      (ucontext_set_pc_fbsd v npc).gp_x = v.gp_x ∧
      (ucontext_set_pc_fbsd v npc).gp_lr = v.gp_lr ∧
      (ucontext_set_pc_fbsd v npc).gp_sp = v.gp_sp ∧
      (ucontext_set_pc_fbsd v npc).gp_spsr = v.gp_spsr := by
  intro u v npc
  exact ⟨rfl, rfl, rfl, rfl, rfl, rfl, rfl, rfl, rfl, rfl, rfl⟩

/-! ## C8: frame reconstruction at a compiled-code stack-banging fault -/

/-- C8: when the faulting pc is not interpreter code, the code blob at the pc
is an nmethod and the frame is not complete at that pc,
`get_frame_at_stack_banging_point` builds the frame from the context's stack
pointer and frame pointer and from the link register minus one instruction
width - not from the literal faulting pc (lines 208-230 / 865-895). -/
theorem frame_at_banging_point_compiled_incomplete
    (env : Env) (pc sp fp lr : Nat) (cb : CodeBlob)
    (hInterp : env.interpreterContains pc = false)
    (hBlob : env.findBlob pc = some cb)
    (hNm : cb.isNmethod = true)
    (hIncomplete : cb.frameCompleteAt pc = false)
    (hJava : env.isJavaFrame ⟨sp, fp, lrMinusInstruction lr⟩ = true) :
    get_frame_at_stack_banging_point env pc sp fp lr =
      some ⟨sp, fp, lrMinusInstruction lr⟩ ∧
    (lrMinusInstruction lr ≠ pc →
      ∀ fr, get_frame_at_stack_banging_point env pc sp fp lr = some fr → fr.pc ≠ pc) := by
  have h1 : get_frame_at_stack_banging_point env pc sp fp lr =
      some ⟨sp, fp, lrMinusInstruction lr⟩ := by
    unfold get_frame_at_stack_banging_point
    simp [hInterp, hBlob, hNm, hIncomplete, hJava]
  refine ⟨h1, fun hne fr hfr => ?_⟩
  rw [h1] at hfr
  cases hfr
  simpa using hne

/-- Witness for C8 at a concrete input: pc 40 in an incomplete nmethod,
sp 1000, fp 2000, lr 100; the reconstructed frame is `(1000, 2000, 96)`. -/
theorem frame_at_banging_point_compiled_incomplete_witness :
    get_frame_at_stack_banging_point
      { envBase with findBlob := fun _ => some ⟨true, fun _ => false⟩ }
      40 1000 2000 100 = some ⟨1000, 2000, 96⟩ := by
  have h := frame_at_banging_point_compiled_incomplete
    { envBase with findBlob := fun _ => some ⟨true, fun _ => false⟩ }
    40 1000 2000 100 ⟨true, fun _ => false⟩ rfl rfl rfl rfl rfl
  have h96 : lrMinusInstruction 100 = 96 := by decide
  rw [h96] at h
  exact h.1

/-! ## C1: SafeFetch faults resume first, regardless of thread state -/

/-- C1: a SIGSEGV/SIGBUS whose captured pc is a registered SafeFetch fault pc
rewrites the context pc to the registered resume pc and returns handled, on
both variants (lines 308-315 / 974-981).  The environment is otherwise
arbitrary: the thread state, guard zones, poll address and every later rule
play no part, so the check has absolute priority among the SIGSEGV/SIGBUS
classification rules. -/
theorem safefetch_fault_resumes_first
    (env : Env) (sig : Sig) (info : Option SigInfo)
    (u : UContextApple) (v : UContextFBsd) (abortIfUnrecognized : Bool)
    (fpc rpc : Nat)
    (hSig : sig = Sig.SIGSEGV ∨ sig = Sig.SIGBUS)
    (hCrash : env.crashProtection = false)
    (hLookup : safefetchLookup env.safefetchEntries fpc = some rpc)
    (hfpc : fpc ≠ 0)
    (hA : u.pc = fpc) (hF : v.gp_elr = fpc) :
    handleSignalApple env sig info (some u) abortIfUnrecognized =
      ⟨Outcome.safefetchResume, some (ucontext_set_pc_apple u rpc), {}⟩ ∧
    handleSignalBsd env sig info (some v) abortIfUnrecognized =
      ⟨Outcome.safefetchResume, some (ucontext_set_pc_fbsd v rpc), {}⟩ := by
  have hsf : is_safefetch_fault env.safefetchEntries fpc = true := by
    unfold is_safefetch_fault
    rw [hLookup]
    rfl
  have hcont : continuation_for_safefetch_fault env.safefetchEntries fpc = rpc := by
    unfold continuation_for_safefetch_fault
    rw [hLookup]
    rfl
  constructor
  · unfold handleSignalApple
    rcases hSig with h | h <;> subst h <;>
      simp [hCrash, ucontext_get_pc_apple, hA, hfpc, hsf, hcont]
  · unfold handleSignalBsd
    rcases hSig with h | h <;> subst h <;>
      simp [hCrash, ucontext_get_pc_fbsd, hF, hfpc, hsf, hcont]

/-- Witness for C1: registry `[(100, 200)]`, a SIGSEGV at pc 100 resumes at
pc 200 on both variants, with a yellow-zone environment that would otherwise
match the guard rules. -/
theorem safefetch_fault_resumes_first_witness :
    handleSignalApple
      { envBase with safefetchEntries := [(100, 200)],
                     onLocalStack := fun _ => true,
                     inStackYellowReservedZone := fun _ => true }
      Sig.SIGSEGV none (some { ucA0 with pc := 100 }) true =
      ⟨Outcome.safefetchResume,
       some (ucontext_set_pc_apple { ucA0 with pc := 100 } 200), {}⟩ ∧
    handleSignalBsd
      { envBase with safefetchEntries := [(100, 200)],
                     onLocalStack := fun _ => true,
                     inStackYellowReservedZone := fun _ => true }
      Sig.SIGSEGV none (some { ucF0 with gp_elr := 100 }) true =
      ⟨Outcome.safefetchResume,
       some (ucontext_set_pc_fbsd { ucF0 with gp_elr := 100 } 200), {}⟩ :=
  safefetch_fault_resumes_first _ _ _ _ _ _ 100 200 (Or.inl rfl) rfl rfl
    (by decide) rfl rfl

/-! ## C2: yellow-zone fault of a thread executing Java code -/

/-- Stack stage on a yellow-zone fault in Java state when the address is not
in the reserved zone: disable the yellow zone, propose the stack-overflow
stub (lines 354-357 / 1077-1080). -/
theorem stackOverflowCheck_yellow_java {γ : Type} (env : Env) (u : γ)
    (pc sp fp lr addr : Nat)
    (hOn : env.onLocalStack addr = true)
    (hYellow : env.inStackYellowReservedZone addr = true)
    (hState : env.threadState = ThreadState.in_Java)
    (hRes : env.inStackReservedZone addr = false) :
    stackOverflowCheck env u pc sp fp lr addr =
      StageOut.next
        (env.continuationForImplicitException pc ImplicitKind.STACK_OVERFLOW)
        ⟨true, false, false, none, none⟩ := by
  unfold stackOverflowCheck
  simp [hOn, hYellow, hState, hRes]

/-- The reserved-zone rescue of lines 336-351 / 1059-1074 applies: the fault
address is in the reserved zone, the frame at the banging point can be
reconstructed, and `look_for_reserved_stack_annotated_method` finds an
activation frame (non-NULL sp). -/
def reservedRescueApplies (env : Env) (pc sp fp lr addr : Nat) : Prop :=
  env.inStackReservedZone addr = true ∧
  ∃ fr : Frame, get_frame_at_stack_banging_point env pc sp fp lr = some fr ∧
    (env.lookForReservedStackAnnotatedMethod fr).sp ≠ 0

/-- Stack stage on a yellow-zone fault in Java state whenever the reserved
rescue does not apply - the address is outside the reserved zone, the frame
cannot be reconstructed, or no annotated method is found: fall through to
disabling the yellow zone and proposing the stack-overflow stub
(lines 352-357 / 1075-1080). -/
theorem stackOverflowCheck_yellow_java_no_rescue {γ : Type} (env : Env) (u : γ)
    (pc sp fp lr addr : Nat)
    (hOn : env.onLocalStack addr = true)
    (hYellow : env.inStackYellowReservedZone addr = true)
    (hState : env.threadState = ThreadState.in_Java)
    (hNoRescue : ¬ reservedRescueApplies env pc sp fp lr addr) :
    stackOverflowCheck env u pc sp fp lr addr =
      StageOut.next
        (env.continuationForImplicitException pc ImplicitKind.STACK_OVERFLOW)
        ⟨true, false, false, none, none⟩ := by
  unfold stackOverflowCheck
  rcases hres : env.inStackReservedZone addr with _ | _
  · simp [hOn, hYellow, hState, hres]
  · rcases hfr : get_frame_at_stack_banging_point env pc sp fp lr with _ | fr
    · simp [hOn, hYellow, hState, hres, hfr]
    · have hsp : (env.lookForReservedStackAnnotatedMethod fr).sp = 0 := by
        by_contra hne
        exact hNoRescue ⟨hres, fr, hfr, hne⟩
      simp [hOn, hYellow, hState, hres, hfr, hsp]

/-- Stack stage on a reserved-zone fault in Java state when an annotated
activation frame is found: disable the reserved zone, record the activation
point, return handled (lines 336-351 / 1059-1074). -/
theorem stackOverflowCheck_reserved_rescue {γ : Type} (env : Env) (u : γ)
    (pc sp fp lr addr : Nat) (fr : Frame)
    (hOn : env.onLocalStack addr = true)
    (hYellow : env.inStackYellowReservedZone addr = true)
    (hState : env.threadState = ThreadState.in_Java)
    (hRes : env.inStackReservedZone addr = true)
    (hFr : get_frame_at_stack_banging_point env pc sp fp lr = some fr)
    (hAct : (env.lookForReservedStackAnnotatedMethod fr).sp ≠ 0) :
    stackOverflowCheck env u pc sp fp lr addr =
      StageOut.done ⟨Outcome.resume, some u,
        ⟨false, true, false,
         some (reservedActivationPoint env (env.lookForReservedStackAnnotatedMethod fr)),
         none⟩⟩ := by
  unfold stackOverflowCheck
  simp [hOn, hYellow, hState, hRes, hFr, hAct]

/-- C2: for a thread executing Java code, a SIGSEGV at a yellow-zone stack
address disables the yellow zone and redirects the pc to the stack-overflow
stub, except that a reserved-zone address with a reserved-stack-annotated
enclosing frame instead disables the reserved zone, records the frame's
activation point on the thread and returns handled without redirecting
(lines 334-362 / 1057-1085, both variants).  The redirect branch is proved
whenever the rescue does not apply - the address is outside the reserved
zone, the banging-point frame cannot be reconstructed, or no annotated
method is found.  Side conditions pin the other classifier queries to their
values at a genuine stack-overflow fault: the pc is no SafeFetch or JNI
fast-get-field pc, the fault address is no poll address or serialization
page, and a large stack address needs an explicit null check. -/
theorem yellow_zone_fault_in_java
    (env : Env) (i : SigInfo) (u : UContextApple) (v : UContextFBsd)
    (abortIfUnrecognized : Bool)
    (hCrash : env.crashProtection = false)
    (hInst : env.signalHandlersInstalled = true)
    (hJavaT : env.tIsJavaThread = true)
    (hState : env.threadState = ThreadState.in_Java)
    (hGap : env.stackGapAdjust = 0)
    (hsfA : is_safefetch_fault env.safefetchEntries u.pc = false)
    (hsfF : is_safefetch_fault env.safefetchEntries v.gp_elr = false)
    (hOn : env.onLocalStack i.si_addr = true)
    (hYellow : env.inStackYellowReservedZone i.si_addr = true)
    (hSlowA : env.findSlowcasePC u.pc = addrMinusOne)
    (hSlowF : env.findSlowcasePC v.gp_elr = addrMinusOne)
    (hSer : env.isMemorySerializePage i.si_addr = false)
    (hPoll : env.isPollAddress i.si_addr = false)
    (hNull : env.needsExplicitNullCheck i.si_addr = true) :
    (¬ reservedRescueApplies env u.pc u.sp u.fp u.lr i.si_addr →
      env.continuationForImplicitException u.pc ImplicitKind.STACK_OVERFLOW ≠ 0 →
        handleSignalApple env Sig.SIGSEGV (some i) (some u) abortIfUnrecognized =
          ⟨Outcome.redirect
             (env.continuationForImplicitException u.pc ImplicitKind.STACK_OVERFLOW),
           some (ucontext_set_pc_apple u
             (env.continuationForImplicitException u.pc ImplicitKind.STACK_OVERFLOW)),
           ⟨true, false, false, none, some u.pc⟩⟩) ∧
    (¬ reservedRescueApplies env v.gp_elr v.gp_sp (v.gp_x 29) v.gp_lr i.si_addr →
      env.continuationForImplicitException v.gp_elr ImplicitKind.STACK_OVERFLOW ≠ 0 →
        handleSignalBsd env Sig.SIGSEGV (some i) (some v) abortIfUnrecognized =
          ⟨Outcome.redirect
             (env.continuationForImplicitException v.gp_elr ImplicitKind.STACK_OVERFLOW),
           some (ucontext_set_pc_fbsd v
             (env.continuationForImplicitException v.gp_elr ImplicitKind.STACK_OVERFLOW)),
           ⟨true, false, false, none, some v.gp_elr⟩⟩) ∧
    (∀ fr : Frame, env.inStackReservedZone i.si_addr = true →
      get_frame_at_stack_banging_point env u.pc u.sp u.fp u.lr = some fr →
      (env.lookForReservedStackAnnotatedMethod fr).sp ≠ 0 →
        handleSignalApple env Sig.SIGSEGV (some i) (some u) abortIfUnrecognized =
          ⟨Outcome.resume, some u,
           ⟨false, true, false,
            some (reservedActivationPoint env
              (env.lookForReservedStackAnnotatedMethod fr)), none⟩⟩) ∧
    (∀ fr : Frame, env.inStackReservedZone i.si_addr = true →
      get_frame_at_stack_banging_point env v.gp_elr v.gp_sp (v.gp_x 29) v.gp_lr = some fr →
      (env.lookForReservedStackAnnotatedMethod fr).sp ≠ 0 →
        handleSignalBsd env Sig.SIGSEGV (some i) (some v) abortIfUnrecognized =
          ⟨Outcome.resume, some v,
           ⟨false, true, false,
            some (reservedActivationPoint env
              (env.lookForReservedStackAnnotatedMethod fr)), none⟩⟩) := by
  refine ⟨fun hNoRescue hStubA => ?_, fun hNoRescue hStubF => ?_,
          fun fr hRes hFr hAct => ?_, fun fr hRes hFr hAct => ?_⟩
  · unfold handleSignalApple pipelineApple
    simp [hCrash, hInst, hJavaT, chainDispatch, stubFinish, hState, ucontext_get_pc_apple, ucontext_get_sp_apple,
      ucontext_get_fp_apple, hsfA, hSlowA, hSer, hStubA,
      stackOverflowCheck_yellow_java_no_rescue env u u.pc u.sp u.fp u.lr i.si_addr
        hOn hYellow hState hNoRescue]
  · unfold handleSignalBsd pipelineBsd
    simp [hCrash, hInst, hJavaT, chainDispatch, stubFinish, hState, hGap, ucontext_get_pc_fbsd, ucontext_get_sp_fbsd,
      ucontext_get_fp_fbsd, hsfF, hSlowF, hSer, hStubF, javaChainBsd, hPoll, hNull,
      stackOverflowCheck_yellow_java_no_rescue env v v.gp_elr v.gp_sp (v.gp_x 29) v.gp_lr
        i.si_addr hOn hYellow hState hNoRescue]
  · unfold handleSignalApple pipelineApple
    simp [hCrash, hInst, hJavaT, chainDispatch, stubFinish, ucontext_get_pc_apple, ucontext_get_sp_apple,
      ucontext_get_fp_apple, hsfA,
      stackOverflowCheck_reserved_rescue env u u.pc u.sp u.fp u.lr i.si_addr fr
        hOn hYellow hState hRes hFr hAct]
  · unfold handleSignalBsd pipelineBsd
    simp [hCrash, hInst, hJavaT, chainDispatch, stubFinish, hGap, ucontext_get_pc_fbsd, ucontext_get_sp_fbsd,
      ucontext_get_fp_fbsd, hsfF,
      stackOverflowCheck_reserved_rescue env v v.gp_elr v.gp_sp (v.gp_x 29) v.gp_lr
        i.si_addr fr hOn hYellow hState hRes hFr hAct]

/-- Environment of a plain yellow-zone stack-overflow fault: every address is
on the thread stack and in the yellow zone, the implicit-exception stub is 500. -/
def envC2y : Env :=
  { envBase with
    onLocalStack := fun _ => true,
    inStackYellowReservedZone := fun _ => true,
    continuationForImplicitException := fun _ _ => 500 }

/-- Environment of a reserved-zone fault rescued by an annotated method whose
activation frame is `(800, 900, 40)`. -/
def envC2r : Env :=
  { envBase with
    onLocalStack := fun _ => true,
    inStackYellowReservedZone := fun _ => true,
    inStackReservedZone := fun _ => true,
    interpreterContains := fun _ => true,
    isFirstJavaFrame := fun _ => true,
    lookForReservedStackAnnotatedMethod := fun _ => ⟨800, 900, 40⟩ }

/-- Environment of a reserved-zone fault whose rescue fails: the frame at the
banging point is reconstructed, but `look_for_reserved_stack_annotated_method`
finds no annotated method (NULL-sp activation frame); the implicit-exception
stub is 500. -/
def envC2f : Env :=
  { envC2r with
    lookForReservedStackAnnotatedMethod := fun _ => ⟨0, 0, 0⟩,
    continuationForImplicitException := fun _ _ => 500 }

/-- An Apple context whose pc is 100. -/
def ucA100 : UContextApple := { ucA0 with pc := 100 }

/-- A FreeBSD context whose pc is 100. -/
def ucF100 : UContextFBsd := { ucF0 with gp_elr := 100 }

/-- A siginfo with fault address 3000. -/
def infoAt3000 : SigInfo := ⟨3000, SiCode.CODE_OTHER⟩

/-- Witness for C2 at concrete inputs: the plain yellow-zone fault and the
reserved-zone fault with a failed rescue (frame found, but no annotated
method) both redirect to stub 500 after disabling the yellow zone; the
rescued reserved-zone fault resumes with activation point 800 recorded and
the reserved zone disabled, on both variants. -/
theorem yellow_zone_fault_in_java_witness :
    (handleSignalApple envC2y Sig.SIGSEGV (some infoAt3000) (some ucA100) true =
      ⟨Outcome.redirect 500, some (ucontext_set_pc_apple ucA100 500),
       ⟨true, false, false, none, some 100⟩⟩) ∧
    (handleSignalBsd envC2y Sig.SIGSEGV (some infoAt3000) (some ucF100) true =
      ⟨Outcome.redirect 500, some (ucontext_set_pc_fbsd ucF100 500),
       ⟨true, false, false, none, some 100⟩⟩) ∧
    (handleSignalApple envC2f Sig.SIGSEGV (some infoAt3000) (some ucA100) true =
      ⟨Outcome.redirect 500, some (ucontext_set_pc_apple ucA100 500),
       ⟨true, false, false, none, some 100⟩⟩) ∧
    (handleSignalBsd envC2f Sig.SIGSEGV (some infoAt3000) (some ucF100) true =
      ⟨Outcome.redirect 500, some (ucontext_set_pc_fbsd ucF100 500),
       ⟨true, false, false, none, some 100⟩⟩) ∧
    (handleSignalApple envC2r Sig.SIGSEGV (some infoAt3000) (some ucA100) true =
      ⟨Outcome.resume, some ucA100, ⟨false, true, false, some 800, none⟩⟩) ∧
    (handleSignalBsd envC2r Sig.SIGSEGV (some infoAt3000) (some ucF100) true =
      ⟨Outcome.resume, some ucF100, ⟨false, true, false, some 800, none⟩⟩) := by
  have hnrY : ¬ reservedRescueApplies envC2y 100 0 0 0 3000 :=
    fun h => absurd h.1 (by decide)
  have hnrF : ¬ reservedRescueApplies envC2f 100 0 0 0 3000 := by
    rintro ⟨-, fr, hfr, hsp⟩
    rw [show get_frame_at_stack_banging_point envC2f 100 0 0 0 = some ⟨0, 0, 100⟩
      from rfl] at hfr
    injection hfr with h
    rw [← h] at hsp
    exact hsp rfl
  exact
    ⟨(yellow_zone_fault_in_java envC2y infoAt3000 ucA100 ucF100 true
        rfl rfl rfl rfl rfl rfl rfl rfl rfl rfl rfl rfl rfl rfl).1 hnrY (by decide),
     (yellow_zone_fault_in_java envC2y infoAt3000 ucA100 ucF100 true
        rfl rfl rfl rfl rfl rfl rfl rfl rfl rfl rfl rfl rfl rfl).2.1 hnrY (by decide),
     (yellow_zone_fault_in_java envC2f infoAt3000 ucA100 ucF100 true
        rfl rfl rfl rfl rfl rfl rfl rfl rfl rfl rfl rfl rfl rfl).1 hnrF (by decide),
     (yellow_zone_fault_in_java envC2f infoAt3000 ucA100 ucF100 true
        rfl rfl rfl rfl rfl rfl rfl rfl rfl rfl rfl rfl rfl rfl).2.1 hnrF (by decide),
     (yellow_zone_fault_in_java envC2r infoAt3000 ucA100 ucF100 true
        rfl rfl rfl rfl rfl rfl rfl rfl rfl rfl rfl rfl rfl rfl).2.2.1
        ⟨0, 0, 100⟩ rfl rfl (by decide),
     (yellow_zone_fault_in_java envC2r infoAt3000 ucA100 ucF100 true
        rfl rfl rfl rfl rfl rfl rfl rfl rfl rfl rfl rfl rfl rfl).2.2.2
        ⟨0, 0, 100⟩ rfl rfl (by decide)⟩

/-! ## C3: red-zone fault is fatal, never redirected -/

/-- Stack stage on a red-zone fault (yellow test already false): disable the
red zone and fall through with no stub (lines 363-368 / 1086-1096). -/
theorem stackOverflowCheck_red {γ : Type} (env : Env) (u : γ)
    (pc sp fp lr addr : Nat)
    (hOn : env.onLocalStack addr = true)
    (hYellowF : env.inStackYellowReservedZone addr = false)
    (hRed : env.inStackRedZone addr = true) :
    stackOverflowCheck env u pc sp fp lr addr =
      StageOut.next 0 ⟨false, false, true, none, none⟩ := by
  unfold stackOverflowCheck
  simp [hOn, hYellowF, hRed]

/-- Stack stage on a fault whose address is not on the thread stack: no action. -/
theorem stackOverflowCheck_offstack {γ : Type} (env : Env) (u : γ)
    (pc sp fp lr addr : Nat)
    (hOn : env.onLocalStack addr = false) :
    stackOverflowCheck env u pc sp fp lr addr = StageOut.next 0 ⟨false, false, false, none, none⟩ := by
  unfold stackOverflowCheck
  simp [hOn]

/-- The Apple in-Java chain keeps the stub untouched on a SIGSEGV/SIGBUS that
matches no rule: no poll address, explicit null check required, no
unsafe-access compiled method at the pc. -/
theorem javaChainApple_keep (env : Env) (sig : Sig) (code : SiCode) (addr pc : Nat)
    (hSig : sig = Sig.SIGSEGV ∨ sig = Sig.SIGBUS)
    (hPoll : env.isPollAddress addr = false)
    (hNull : env.needsExplicitNullCheck addr = true)
    (hBlob : env.compiledMethodHasUnsafeAccess pc = false) :
    javaChainApple env sig code addr pc = ChainRes.keep := by
  rcases hSig with h | h <;> subst h <;>
    simp [javaChainApple, hPoll, hNull, hBlob]

/-- C3: a SIGSEGV or SIGBUS at a red-zone stack address (the yellow-reserved
test no longer matching) disables the red zone and, the fault matching no
later rule and no chained handler claiming it, reaches
`VMError::report_and_die`: the classification is fatal and the pc is never
rewritten to a recovery stub (Apple variant, lines 363-368 with fall-through
to line 486). -/
theorem red_zone_fault_is_fatal
    (env : Env) (sig : Sig) (i : SigInfo) (u : UContextApple)
    (hSig : sig = Sig.SIGSEGV ∨ sig = Sig.SIGBUS)
    (hCrash : env.crashProtection = false)
    (hInst : env.signalHandlersInstalled = true)
    (hJavaT : env.tIsJavaThread = true)
    (hsfA : is_safefetch_fault env.safefetchEntries u.pc = false)
    (hOn : env.onLocalStack i.si_addr = true)
    (hYellowF : env.inStackYellowReservedZone i.si_addr = false)
    (hRed : env.inStackRedZone i.si_addr = true)
    (hPoll : env.isPollAddress i.si_addr = false)
    (hNull : env.needsExplicitNullCheck i.si_addr = true)
    (hBlob : env.compiledMethodHasUnsafeAccess u.pc = false)
    (hDoing : env.doingUnsafeAccess = false)
    (hSlowA : env.findSlowcasePC u.pc = addrMinusOne)
    (hSer : env.isMemorySerializePage i.si_addr = false)
    (hChain : env.chainedHandler = false) :
    handleSignalApple env sig (some i) (some u) true =
      ⟨Outcome.fatal, some u, ⟨false, false, true, none, none⟩⟩ := by
  have hkeep := javaChainApple_keep env sig i.si_code i.si_addr u.pc hSig hPoll hNull hBlob
  rcases hSig with h | h <;> subst h <;>
  · unfold handleSignalApple pipelineApple
    simp [hCrash, hInst, hJavaT, chainDispatch, stubFinish, ucontext_get_pc_apple, ucontext_get_sp_apple,
      ucontext_get_fp_apple, hsfA, hkeep, hDoing, hSlowA, hSer, hChain, afterPipeline,
      stackOverflowCheck_red env u u.pc u.sp u.fp u.lr i.si_addr hOn hYellowF hRed]

/-- Witness for C3: a SIGSEGV at red-zone address 3000 with no chained handler
terminates fatally with only the red zone disabled and the pc untouched. -/
theorem red_zone_fault_is_fatal_witness :
    handleSignalApple
      { envBase with onLocalStack := fun _ => true,
                     inStackRedZone := fun _ => true }
      Sig.SIGSEGV (some infoAt3000) (some ucA100) true =
      ⟨Outcome.fatal, some ucA100, ⟨false, false, true, none, none⟩⟩ :=
  red_zone_fault_is_fatal
    { envBase with onLocalStack := fun _ => true,
                   inStackRedZone := fun _ => true }
    Sig.SIGSEGV infoAt3000 ucA100 (Or.inl rfl)
    rfl rfl rfl rfl rfl rfl rfl rfl rfl rfl rfl rfl rfl rfl

/-! ## C7: safepoint-poll fault precedes unsafe-access and null-check rules -/

/-- C7: for a thread executing Java code, a SIGSEGV at the registered polling
address redirects the pc to the safepoint poll stub (lines 388-389 /
1111-1112).  The environment leaves `needsExplicitNullCheck`,
`compiledMethodHasUnsafeAccess` and `doingUnsafeAccess` completely
unconstrained: a fault that would also match the unsafe-access or
implicit-null rules is still classified as a safepoint poll, because the poll
check sits earlier in the same else-if chain. -/
theorem poll_address_fault_redirects_to_poll_stub
    (env : Env) (i : SigInfo) (u : UContextApple) (v : UContextFBsd)
    (abortIfUnrecognized : Bool)
    (hCrash : env.crashProtection = false)
    (hInst : env.signalHandlersInstalled = true)
    (hJavaT : env.tIsJavaThread = true)
    (hState : env.threadState = ThreadState.in_Java)
    (hGap : env.stackGapAdjust = 0)
    (hsfA : is_safefetch_fault env.safefetchEntries u.pc = false)
    (hsfF : is_safefetch_fault env.safefetchEntries v.gp_elr = false)
    (hOnF : env.onLocalStack i.si_addr = false)
    (hPoll : env.isPollAddress i.si_addr = true)
    (hStubA : env.pollStub u.pc ≠ 0)
    (hStubF : env.pollStub v.gp_elr ≠ 0)
    (hSlowA : env.findSlowcasePC u.pc = addrMinusOne)
    (hSlowF : env.findSlowcasePC v.gp_elr = addrMinusOne)
    (hSer : env.isMemorySerializePage i.si_addr = false) :
    handleSignalApple env Sig.SIGSEGV (some i) (some u) abortIfUnrecognized =
      ⟨Outcome.redirect (env.pollStub u.pc),
       some (ucontext_set_pc_apple u (env.pollStub u.pc)),
       ⟨false, false, false, none, some u.pc⟩⟩ ∧
    handleSignalBsd env Sig.SIGSEGV (some i) (some v) abortIfUnrecognized =
      ⟨Outcome.redirect (env.pollStub v.gp_elr),
       some (ucontext_set_pc_fbsd v (env.pollStub v.gp_elr)),
       ⟨false, false, false, none, some v.gp_elr⟩⟩ := by
  constructor
  · unfold handleSignalApple pipelineApple
    simp [hCrash, hInst, hJavaT, chainDispatch, stubFinish, hState, ucontext_get_pc_apple, ucontext_get_sp_apple,
      ucontext_get_fp_apple, hsfA, hSlowA, hSer, hPoll, hStubA, javaChainApple,
      stackOverflowCheck_offstack env u u.pc u.sp u.fp u.lr i.si_addr hOnF]
  · unfold handleSignalBsd pipelineBsd
    simp [hCrash, hInst, hJavaT, chainDispatch, stubFinish, hState, hGap, ucontext_get_pc_fbsd, ucontext_get_sp_fbsd,
      ucontext_get_fp_fbsd, hsfF, hSlowF, hSer, hPoll, hStubF, javaChainBsd,
      stackOverflowCheck_offstack env v v.gp_elr v.gp_sp (v.gp_x 29) v.gp_lr i.si_addr hOnF]

/-- Environment of a safepoint-poll fault at address 3000 that would also
match the implicit-null rule (`needsExplicitNullCheck` false everywhere) and
the unsafe-access rule (`compiledMethodHasUnsafeAccess` true everywhere). -/
def envC7 : Env :=
  { envBase with
    isPollAddress := fun a => a == 3000,
    pollStub := fun _ => 777,
    needsExplicitNullCheck := fun _ => false,
    compiledMethodHasUnsafeAccess := fun _ => true,
    doingUnsafeAccess := true }

/-- Witness for C7: the poll fault at 3000 redirects to poll stub 777 on both
variants even though the implicit-null and unsafe-access predicates also match. -/
theorem poll_address_fault_redirects_to_poll_stub_witness :
    handleSignalApple envC7 Sig.SIGSEGV (some infoAt3000) (some ucA100) true =
      ⟨Outcome.redirect 777, some (ucontext_set_pc_apple ucA100 777),
       ⟨false, false, false, none, some 100⟩⟩ ∧
    handleSignalBsd envC7 Sig.SIGSEGV (some infoAt3000) (some ucF100) true =
      ⟨Outcome.redirect 777, some (ucontext_set_pc_fbsd ucF100 777),
       ⟨false, false, false, none, some 100⟩⟩ :=
  poll_address_fault_redirects_to_poll_stub envC7 infoAt3000 ucA100 ucF100 true
    rfl rfl rfl rfl rfl rfl rfl rfl rfl (by decide) (by decide) rfl rfl rfl

/-! ## C5: unsafe-access bus fault in vm/native state -/

/-- Environment of a SIGBUS during a flagged unsafe access while the thread is
in native code. -/
def envC5 : Env :=
  { envBase with
    threadState := ThreadState.in_native,
    doingUnsafeAccess := true }

/-- Counterexample to C5: on the FreeBSD/OpenBSD/NetBSD variant the vm/native
unsafe-access rule tests only `_thread_in_vm` (line 1139), so a SIGBUS at pc
100 of a `_thread_in_native` thread flagged `doing_unsafe_access` is NOT
redirected to pc + 4 = 104: with no chained handler and
`abort_if_unrecognized` false the handler returns unhandled and the context
is untouched. -/
theorem unsafe_access_native_falls_through_on_bsd :
    handleSignalBsd envC5 Sig.SIGBUS (some infoAt3000) (some ucF100) false =
      ⟨Outcome.unhandled, some ucF100, ⟨false, false, false, none, none⟩⟩ ∧
    Outcome.unhandled ≠ Outcome.redirect (nextPCAfterCall 100) :=
  ⟨rfl, by decide⟩

/-- C5 as amended: a SIGBUS during a flagged unsafe access is redirected to
the continuation `pc + NativeCall::instruction_size` for threads in
`_thread_in_vm` or `_thread_in_native` on the Apple variant (lines 429-435),
but only for `_thread_in_vm` on the FreeBSD/OpenBSD/NetBSD variant
(lines 1139-1144). -/
theorem unsafe_access_bus_redirects_to_next_pc
    (env : Env) (i : SigInfo) (u : UContextApple) (v : UContextFBsd)
    (abortIfUnrecognized : Bool)
    (hCrash : env.crashProtection = false)
    (hInst : env.signalHandlersInstalled = true)
    (hJavaT : env.tIsJavaThread = true)
    (hDoing : env.doingUnsafeAccess = true)
    (hsfA : is_safefetch_fault env.safefetchEntries u.pc = false)
    (hsfF : is_safefetch_fault env.safefetchEntries v.gp_elr = false)
    (hOnF : env.onLocalStack i.si_addr = false)
    (hSlowA : env.findSlowcasePC u.pc = addrMinusOne)
    (hSlowF : env.findSlowcasePC v.gp_elr = addrMinusOne)
    (hNZA : nextPCAfterCall u.pc ≠ 0)
    (hNZF : nextPCAfterCall v.gp_elr ≠ 0) :
    ((env.threadState = ThreadState.in_vm ∨ env.threadState = ThreadState.in_native) →
      handleSignalApple env Sig.SIGBUS (some i) (some u) abortIfUnrecognized =
        ⟨Outcome.redirect (nextPCAfterCall u.pc),
         some (ucontext_set_pc_apple u (nextPCAfterCall u.pc)),
         ⟨false, false, false, none, some u.pc⟩⟩) ∧
    (env.threadState = ThreadState.in_vm →
      handleSignalBsd env Sig.SIGBUS (some i) (some v) abortIfUnrecognized =
        ⟨Outcome.redirect (nextPCAfterCall v.gp_elr),
         some (ucontext_set_pc_fbsd v (nextPCAfterCall v.gp_elr)),
         ⟨false, false, false, none, some v.gp_elr⟩⟩) := by
  constructor
  · intro hState
    unfold handleSignalApple pipelineApple
    rcases hState with h | h <;>
      simp [hCrash, hInst, hJavaT, chainDispatch, stubFinish, h, hDoing, ucontext_get_pc_apple,
        ucontext_get_sp_apple, ucontext_get_fp_apple, hsfA, hSlowA, hNZA,
        handle_unsafe_access,
        stackOverflowCheck_offstack env u u.pc u.sp u.fp u.lr i.si_addr hOnF]
  · intro hState
    unfold handleSignalBsd pipelineBsd
    simp [hCrash, hInst, hJavaT, chainDispatch, stubFinish, hState, hDoing, ucontext_get_pc_fbsd, hsfF, hSlowF,
      hNZF, handle_unsafe_access]

/-- Witness for the amended C5: a SIGBUS at pc 100 with `doing_unsafe_access`
redirects to 104 for native state on Apple and vm state on both variants. -/
theorem unsafe_access_bus_redirects_to_next_pc_witness :
    handleSignalApple envC5 Sig.SIGBUS (some infoAt3000) (some ucA100) true =
      ⟨Outcome.redirect 104, some (ucontext_set_pc_apple ucA100 104),
       ⟨false, false, false, none, some 100⟩⟩ ∧
    handleSignalBsd { envC5 with threadState := ThreadState.in_vm }
        Sig.SIGBUS (some infoAt3000) (some ucF100) true =
      ⟨Outcome.redirect 104, some (ucontext_set_pc_fbsd ucF100 104),
       ⟨false, false, false, none, some 100⟩⟩ :=
  ⟨(unsafe_access_bus_redirects_to_next_pc envC5 infoAt3000 ucA100 ucF100 true
      rfl rfl rfl rfl rfl rfl rfl rfl rfl (by decide) (by decide)).1 (Or.inr rfl),
   (unsafe_access_bus_redirects_to_next_pc { envC5 with threadState := ThreadState.in_vm }
      infoAt3000 ucA100 ucF100 true
      rfl rfl rfl rfl rfl rfl rfl rfl rfl (by decide) (by decide)).2 rfl⟩

/-! ## C4: the pipeline is not strictly first-match-wins -/

/-- Environment of a fault matching both the poll rule (action: poll stub 777)
and the later JNI fast-get-field slow-case rule (action: slow-case pc 888). -/
def envC4 : Env :=
  { envBase with
    isPollAddress := fun a => a == 3000,
    pollStub := fun _ => 777,
    findSlowcasePC := fun p => if p == 100 then 888 else addrMinusOne }

/-- Counterexample to C4: a SIGSEGV at the registered poll address 3000 with
pc 100 inside a JNI fast-get-field stub matches the poll rule first (its
action is poll stub 777), yet the final classification is a redirect to the
slow-case pc 888: the JNI fast-get-field check (lines 439-444) runs after the
chain and overwrites the already-chosen stub, so the earliest matching rule's
action is not final. -/
theorem pipeline_not_first_match_wins :
    handleSignalApple envC4 Sig.SIGSEGV (some infoAt3000) (some ucA100) true =
      ⟨Outcome.redirect 888, some (ucontext_set_pc_apple ucA100 888),
       ⟨false, false, false, none, some 100⟩⟩ ∧
    envC4.isPollAddress 3000 = true ∧ envC4.pollStub 100 = 777 ∧ (888 : Nat) ≠ 777 :=
  ⟨rfl, rfl, rfl, by decide⟩

/-- The Apple in-Java chain never traps into `Unimplemented()` on SIGSEGV or
SIGBUS (only the Apple `FPE_NOOP` arithmetic branch does). -/
theorem javaChainApple_no_trap_on_segv_bus (env : Env) (sig : Sig) (code : SiCode)
    (addr pc : Nat) (hSig : sig = Sig.SIGSEGV ∨ sig = Sig.SIGBUS) :
    javaChainApple env sig code addr pc ≠ ChainRes.unimplementedTrap := by
  rcases hSig with h | h <;> subst h <;>
    · unfold javaChainApple
      split_ifs <;> simp_all

/-- The FreeBSD/OpenBSD/NetBSD in-Java chain has no `Unimplemented()` arm at all. -/
theorem javaChainBsd_no_trap (env : Env) (sig : Sig) (code : SiCode) (addr pc : Nat) :
    javaChainBsd env sig code addr pc ≠ ChainRes.unimplementedTrap := by
  unfold javaChainBsd
  split_ifs <;> simp_all

/-- C4 as amended: first-match-wins holds through the guard-zone section and
the thread-state chain, but the JNI fast-get-field slow-case check runs
unconditionally afterwards on every SIGSEGV/SIGBUS (lines 437-444 /
1146-1153) and its action supersedes whatever stub the chain selected:
whenever `find_slowcase_pc` hits, the final classification is a redirect to
the slow-case pc, regardless of every earlier rule's choice. -/
theorem jni_slowcase_supersedes_chain_stub
    (env : Env) (sig : Sig) (i : SigInfo) (u : UContextApple) (v : UContextFBsd)
    (abortIfUnrecognized : Bool) (a : Nat)
    (hSig : sig = Sig.SIGSEGV ∨ sig = Sig.SIGBUS)
    (hCrash : env.crashProtection = false)
    (hInst : env.signalHandlersInstalled = true)
    (hJavaT : env.tIsJavaThread = true)
    (hState : env.threadState = ThreadState.in_Java)
    (hGap : env.stackGapAdjust = 0)
    (hsfA : is_safefetch_fault env.safefetchEntries u.pc = false)
    (hsfF : is_safefetch_fault env.safefetchEntries v.gp_elr = false)
    (hOnF : env.onLocalStack i.si_addr = false)
    (hSlowA : env.findSlowcasePC u.pc = a)
    (hSlowF : env.findSlowcasePC v.gp_elr = a)
    (haM1 : a ≠ addrMinusOne)
    (ha0 : a ≠ 0)
    (hSer : env.isMemorySerializePage i.si_addr = false) :
    handleSignalApple env sig (some i) (some u) abortIfUnrecognized =
      ⟨Outcome.redirect a, some (ucontext_set_pc_apple u a),
       ⟨false, false, false, none, some u.pc⟩⟩ ∧
    handleSignalBsd env sig (some i) (some v) abortIfUnrecognized =
      ⟨Outcome.redirect a, some (ucontext_set_pc_fbsd v a),
       ⟨false, false, false, none, some v.gp_elr⟩⟩ := by
  constructor
  · have htrap := javaChainApple_no_trap_on_segv_bus env sig i.si_code i.si_addr u.pc hSig
    unfold handleSignalApple pipelineApple
    rcases hjc : javaChainApple env sig i.si_code i.si_addr u.pc with _ | s | _
    · exact absurd hjc htrap
    all_goals
      rcases hSig with h | h <;> subst h <;>
        simp [hCrash, hInst, hJavaT, chainDispatch, stubFinish, hState, ucontext_get_pc_apple, ucontext_get_sp_apple,
          ucontext_get_fp_apple, hsfA, hSlowA, haM1, ha0, hSer, hjc,
          stackOverflowCheck_offstack env u u.pc u.sp u.fp u.lr i.si_addr hOnF]
  · unfold handleSignalBsd pipelineBsd
    rcases hjc : javaChainBsd env sig i.si_code i.si_addr v.gp_elr with _ | s | _
    · exact absurd hjc (javaChainBsd_no_trap env sig i.si_code i.si_addr v.gp_elr)
    all_goals
      rcases hSig with h | h <;> subst h <;>
        simp [hCrash, hInst, hJavaT, chainDispatch, stubFinish, hState, hGap, ucontext_get_pc_fbsd, ucontext_get_sp_fbsd,
          ucontext_get_fp_fbsd, hsfF, hSlowF, haM1, ha0, hSer, hjc,
          stackOverflowCheck_offstack env v v.gp_elr v.gp_sp (v.gp_x 29) v.gp_lr i.si_addr hOnF]

/-- Witness for the amended C4 at the counterexample input: the slow-case pc
888 supersedes the poll stub 777 on both variants. -/
theorem jni_slowcase_supersedes_chain_stub_witness :
    handleSignalApple envC4 Sig.SIGSEGV (some infoAt3000) (some ucA100) true =
      ⟨Outcome.redirect 888, some (ucontext_set_pc_apple ucA100 888),
       ⟨false, false, false, none, some 100⟩⟩ ∧
    handleSignalBsd envC4 Sig.SIGSEGV (some infoAt3000) (some ucF100) true =
      ⟨Outcome.redirect 888, some (ucontext_set_pc_fbsd ucF100 888),
       ⟨false, false, false, none, some 100⟩⟩ :=
  jni_slowcase_supersedes_chain_stub envC4 Sig.SIGSEGV infoAt3000 ucA100 ucF100 true 888
    (Or.inl rfl) rfl rfl rfl rfl rfl rfl rfl rfl rfl rfl
    (by decide) (by decide) rfl

/-! ## C6: which signals reach the guard-zone rules -/

/-- Counterexample to C6: on the FreeBSD/OpenBSD/NetBSD variant the stack
section runs only for SIGSEGV (line 1002), so a SIGBUS whose fault address
3000 is on the thread stack and inside the yellow zone is not handled by the
guard-zone rules: no zone is disabled, nothing is redirected, and with no
chained handler and `abort_if_unrecognized` false the outcome is unhandled. -/
theorem bus_yellow_zone_fault_unguarded_on_bsd :
    handleSignalBsd envC2y Sig.SIGBUS (some infoAt3000) (some ucF100) false =
      ⟨Outcome.unhandled, some ucF100, ⟨false, false, false, none, none⟩⟩ ∧
    envC2y.onLocalStack 3000 = true ∧
    envC2y.inStackYellowReservedZone 3000 = true :=
  ⟨rfl, rfl, rfl⟩

/-- Neither the finishing checks nor the chain dispatch touch the guard-zone
fields of the thread record: only the stack-overflow section mutates them. -/
theorem chainDispatch_guard_fields {γ : Type} (env : Env) (sig : Sig) (addr pc : Nat)
    (u : γ) (setPC : γ → Nat → γ) (tm : ThreadMut) (ab : Bool)
    (c : ChainRes) (s1 : Nat) :
    (chainDispatch env sig addr pc u setPC tm ab c s1).tm.yellowReservedDisabled =
      tm.yellowReservedDisabled ∧
    (chainDispatch env sig addr pc u setPC tm ab c s1).tm.reservedDisabled =
      tm.reservedDisabled ∧
    (chainDispatch env sig addr pc u setPC tm ab c s1).tm.redDisabled =
      tm.redDisabled := by
  have hfin : ∀ s : Nat,
      (stubFinish env sig addr pc u setPC tm ab s).tm.yellowReservedDisabled =
        tm.yellowReservedDisabled ∧
      (stubFinish env sig addr pc u setPC tm ab s).tm.reservedDisabled =
        tm.reservedDisabled ∧
      (stubFinish env sig addr pc u setPC tm ab s).tm.redDisabled =
        tm.redDisabled := by
    intro s
    unfold stubFinish afterPipeline
    simp [apply_ite (HResult.tm), apply_ite ThreadMut.yellowReservedDisabled,
      apply_ite ThreadMut.reservedDisabled, apply_ite ThreadMut.redDisabled]
  cases c
  · simp [chainDispatch]
  · exact hfin _
  · exact hfin _

/-- On the FreeBSD/OpenBSD/NetBSD variant, a SIGBUS delivery never touches the
guard-zone state, whatever the environment: only the SIGSEGV-guarded stack
section calls the disable operations. -/
theorem handleSignalBsd_bus_touches_no_guard_zone
    (env : Env) (i : SigInfo) (u : UContextFBsd) (abortIfUnrecognized : Bool)
    (hCrash : env.crashProtection = false) :
    (handleSignalBsd env Sig.SIGBUS (some i) (some u) abortIfUnrecognized).tm.yellowReservedDisabled = false ∧
    (handleSignalBsd env Sig.SIGBUS (some i) (some u) abortIfUnrecognized).tm.reservedDisabled = false ∧
    (handleSignalBsd env Sig.SIGBUS (some i) (some u) abortIfUnrecognized).tm.redDisabled = false := by
  unfold handleSignalBsd pipelineBsd
  simp [hCrash, chainDispatch_guard_fields, afterPipeline,
    apply_ite (HResult.tm), apply_ite ThreadMut.yellowReservedDisabled,
    apply_ite ThreadMut.reservedDisabled, apply_ite ThreadMut.redDisabled]

/-- C6 as amended: the guard-zone rules are evaluated for both SIGSEGV and
SIGBUS stack faults on the Apple variant (line 327), where a SIGBUS at a
yellow-zone address of a Java thread disables the yellow zone and redirects
to the stack-overflow stub; on the FreeBSD/OpenBSD/NetBSD variant only
SIGSEGV enters the stack section (line 1002), and a SIGBUS never changes any
guard-zone state. -/
theorem guard_zone_signal_coverage
    (env : Env) (i : SigInfo) (u : UContextApple) (abortIfUnrecognized : Bool)
    (hCrash : env.crashProtection = false)
    (hInst : env.signalHandlersInstalled = true)
    (hJavaT : env.tIsJavaThread = true)
    (hState : env.threadState = ThreadState.in_Java)
    (hsfA : is_safefetch_fault env.safefetchEntries u.pc = false)
    (hOn : env.onLocalStack i.si_addr = true)
    (hYellow : env.inStackYellowReservedZone i.si_addr = true)
    (hRes : env.inStackReservedZone i.si_addr = false)
    (hStubA : env.continuationForImplicitException u.pc ImplicitKind.STACK_OVERFLOW ≠ 0)
    (hSlowA : env.findSlowcasePC u.pc = addrMinusOne) :
    handleSignalApple env Sig.SIGBUS (some i) (some u) abortIfUnrecognized =
      ⟨Outcome.redirect
         (env.continuationForImplicitException u.pc ImplicitKind.STACK_OVERFLOW),
       some (ucontext_set_pc_apple u
         (env.continuationForImplicitException u.pc ImplicitKind.STACK_OVERFLOW)),
       ⟨true, false, false, none, some u.pc⟩⟩ ∧
    (∀ (env2 : Env) (i2 : SigInfo) (v : UContextFBsd) (ab2 : Bool),
       env2.crashProtection = false →
       (handleSignalBsd env2 Sig.SIGBUS (some i2) (some v) ab2).tm.yellowReservedDisabled = false ∧
       (handleSignalBsd env2 Sig.SIGBUS (some i2) (some v) ab2).tm.reservedDisabled = false ∧
       (handleSignalBsd env2 Sig.SIGBUS (some i2) (some v) ab2).tm.redDisabled = false) := by
  constructor
  · unfold handleSignalApple pipelineApple
    simp [hCrash, hInst, hJavaT, chainDispatch, stubFinish, hState, ucontext_get_pc_apple, ucontext_get_sp_apple,
      ucontext_get_fp_apple, hsfA, hSlowA, hStubA,
      stackOverflowCheck_yellow_java env u u.pc u.sp u.fp u.lr i.si_addr
        hOn hYellow hState hRes]
  · intro env2 i2 v ab2 hC2
    exact handleSignalBsd_bus_touches_no_guard_zone env2 i2 v ab2 hC2

/-- Witness for the amended C6: a SIGBUS at yellow-zone address 3000 is
guard-handled (redirect to stub 500, yellow disabled) on Apple, while the
same delivery on the FreeBSD variant leaves every guard zone untouched. -/
theorem guard_zone_signal_coverage_witness :
    (handleSignalApple envC2y Sig.SIGBUS (some infoAt3000) (some ucA100) true =
      ⟨Outcome.redirect 500, some (ucontext_set_pc_apple ucA100 500),
       ⟨true, false, false, none, some 100⟩⟩) ∧
    ((handleSignalBsd envC2y Sig.SIGBUS (some infoAt3000) (some ucF100) false).tm.yellowReservedDisabled = false ∧
     (handleSignalBsd envC2y Sig.SIGBUS (some infoAt3000) (some ucF100) false).tm.reservedDisabled = false ∧
     (handleSignalBsd envC2y Sig.SIGBUS (some infoAt3000) (some ucF100) false).tm.redDisabled = false) :=
  ⟨(guard_zone_signal_coverage envC2y infoAt3000 ucA100 true
      rfl rfl rfl rfl rfl rfl rfl rfl (by decide) rfl).1,
   (guard_zone_signal_coverage envC2y infoAt3000 ucA100 true
      rfl rfl rfl rfl rfl rfl rfl rfl (by decide) rfl).2
      envC2y infoAt3000 ucF100 false rfl⟩

/-! ## C10: degraded invocations never reach the classifier -/

/-- The outcomes possible without the classifier pipeline: ignored signal,
SafeFetch resume, forward to chain, false for a retrying caller, or fatal
report - never a stub redirect, and no thread mutation. -/
def skipsPipeline {γ : Type} (r : HResult γ) (abortIfUnrecognized : Bool) : Prop :=
  (r.outcome = Outcome.pipeIgnored ∨ r.outcome = Outcome.safefetchResume ∨
   r.outcome = Outcome.chainForwarded ∨ r.outcome = Outcome.unhandled ∨
   r.outcome = Outcome.fatal) ∧
  (∀ s, r.outcome ≠ Outcome.redirect s) ∧
  r.tm = ⟨false, false, false, none, none⟩ ∧
  (r.outcome = Outcome.unhandled → abortIfUnrecognized = false)

/-- The post-pipeline tail with no thread mutations satisfies `skipsPipeline`. -/
theorem afterPipeline_skips {γ : Type} (env : Env) (uc : Option γ) (ab : Bool) :
    skipsPipeline (afterPipeline env uc ⟨false, false, false, none, none⟩ ab) ab := by
  unfold afterPipeline skipsPipeline
  split_ifs <;> simp_all

/-- C10: whenever `info` is NULL, the context is NULL, or the current thread
is not a Java thread, the guard `info != NULL && uc != NULL && thread != NULL`
(lines 323 / 998) skips the whole classifier: no zone is touched, no stub
redirect happens, and the outcome is one of ignored signal, SafeFetch resume,
forward to chain, false (only when `abort_if_unrecognized` is false) or the
fatal report - on both variants. -/
theorem degraded_invocation_skips_classifier
    (env : Env) (sig : Sig) (info : Option SigInfo)
    (uc : Option UContextApple) (vc : Option UContextFBsd)
    (abortIfUnrecognized : Bool)
    (hCrash : env.crashProtection = false)
    (hMissingA : info = none ∨ uc = none ∨ env.tIsJavaThread = false)
    (hMissingF : info = none ∨ vc = none ∨ env.tIsJavaThread = false) :
    skipsPipeline (handleSignalApple env sig info uc abortIfUnrecognized)
      abortIfUnrecognized ∧
    skipsPipeline (handleSignalBsd env sig info vc abortIfUnrecognized)
      abortIfUnrecognized := by
  constructor
  · unfold handleSignalApple
    by_cases hpipe : (sig = Sig.SIGPIPE ∨ sig = Sig.SIGXFSZ)
    · simp [hCrash, hpipe, skipsPipeline]
    · rcases uc with _ | u
      · simp only [hCrash, hpipe, Bool.false_eq_true, if_false, if_neg]
        exact afterPipeline_skips env none abortIfUnrecognized
      · by_cases hsf : (ucontext_get_pc_apple u ≠ 0 ∧
            is_safefetch_fault env.safefetchEntries (ucontext_get_pc_apple u) = true)
        · simp [hCrash, hpipe, hsf, skipsPipeline]
        · rcases info with _ | i
          · simp only [hCrash, hpipe, hsf, Bool.false_eq_true, if_false, if_neg]
            exact afterPipeline_skips env (some u) abortIfUnrecognized
          · rcases hMissingA with h | h | h
            · cases h
            · cases h
            · simp only [hCrash, hpipe, hsf, h, Bool.false_eq_true, false_and, and_false,
                if_false, if_neg]
              exact afterPipeline_skips env (some u) abortIfUnrecognized
  · unfold handleSignalBsd
    by_cases hpipe : (sig = Sig.SIGPIPE ∨ sig = Sig.SIGXFSZ)
    · simp [hCrash, hpipe, skipsPipeline]
    · rcases vc with _ | v
      · simp only [hCrash, hpipe, Bool.false_eq_true, if_false, if_neg]
        exact afterPipeline_skips env none abortIfUnrecognized
      · by_cases hsf : (ucontext_get_pc_fbsd v ≠ 0 ∧
            is_safefetch_fault env.safefetchEntries (ucontext_get_pc_fbsd v) = true)
        · simp [hCrash, hpipe, hsf, skipsPipeline]
        · rcases info with _ | i
          · simp only [hCrash, hpipe, hsf, Bool.false_eq_true, if_false, if_neg]
            exact afterPipeline_skips env (some v) abortIfUnrecognized
          · rcases hMissingF with h | h | h
            · cases h
            · cases h
            · simp only [hCrash, hpipe, hsf, h, Bool.false_eq_true, false_and, and_false,
                if_false, if_neg]
              exact afterPipeline_skips env (some v) abortIfUnrecognized

/-- Witness for C10: a SIGSEGV delivered with a context but no siginfo, on an
environment whose thread would otherwise classify everything, produces a
chain-free fatal report with no redirect and no thread mutation. -/
theorem degraded_invocation_skips_classifier_witness :
    skipsPipeline (handleSignalApple envC2y Sig.SIGSEGV none (some ucA100) true) true ∧
    skipsPipeline (handleSignalBsd envC2y Sig.SIGSEGV none (some ucF100) true) true :=
  degraded_invocation_skips_classifier envC2y Sig.SIGSEGV none (some ucA100)
    (some ucF100) true rfl (Or.inl rfl) (Or.inl rfl)

end JdkBsdAarch64
